import Mathlib

/-!
Shallow embedding of src/system-monitor-with-alert.py (class MonitoringSystem).

External effects (HTTP requests, the Windows service manager, process
creation, sleeps) are modelled by an explicit environment `Env` giving the
outcome of each observation, and an explicit state `SysState` threading the
two process handles of the class together with counters for the observations
already made and a trace of the effects performed.
-/

namespace SystemMonitor

/-- Outcome of one HTTP GET as seen by the caller: either the request
completed with some status code, or it raised (connection error, timeout
malformed response, and so on). -/
inductive HttpOutcome where
  | ok (status : Nat)
  | exn
deriving DecidableEq

/-- MonitoringSystem.check_url_accessible (lines 133-139): returns
status_code == 200; any exception is caught and collapsed to False. -/
def check_url_accessible (o : HttpOutcome) : Bool :=
  match o with
  | HttpOutcome.ok status => status == 200
  | HttpOutcome.exn => false

/-- self.prometheus_url (line 26). -/
def prometheus_url : String := "http://localhost:9090"

/-- self.alertmanager_url (line 27). -/
def alertmanager_url : String := "http://localhost:9093"

/-- self.exporter_url (line 28). -/
def exporter_url : String := "http://localhost:9182/metrics"

/-- Observable external effects of the launcher, in program order. A probe
records the url probed together with the answer check_url_accessible gave;
an sc query records whether RUNNING occurred in its stdout. -/
inductive Event where
  | scQuery (running : Bool)
  | scStart
  | sleep (seconds : Nat)
  | probe (url : String) (ok : Bool)
  | popen (exe : String)
  | terminate (exe : String)
deriving DecidableEq

/-- Whether an event is a process launch (subprocess.Popen). -/
def Event.isPopen : Event → Bool
  | Event.popen _ => true
  | _ => false

/-- Whether an event is the launch of the named executable. -/
def Event.isPopenOf (exe : String) : Event → Bool
  | Event.popen e => e == exe
  | _ => false

/-- Whether an event is an sc start command. -/
def Event.isScStart : Event → Bool
  | Event.scStart => true
  | _ => false

/-- Whether an event is an sc query whose stdout reported RUNNING. -/
def Event.isScQueryTrue : Event → Bool
  | Event.scQuery b => b
  | _ => false

/-- Whether an event is the termination of the named process. -/
def Event.isTerminateOf (exe : String) : Event → Bool
  | Event.terminate e => e == exe
  | _ => false

/-- The external world of a run: the answer of the t-th service-manager
query (RUNNING in the stdout of sc query, with a raised exception folded
into false since check_service_running catches it and returns False);
whether the sc start command is accepted (its stdout contains START_PENDING
or RUNNING, a raise folded into false); whether each executable exists on
disk; whether Popen succeeds for each executable (a raise is caught by the
surrounding except); and the outcome of the t-th HTTP request to a url. -/
structure Env where
  scQueryRunning : Nat → Bool
  scStartAccepted : Bool
  alertmanagerExists : Bool
  prometheusExists : Bool
  alertmanagerSpawnOk : Bool
  prometheusSpawnOk : Bool
  http : Nat → String → HttpOutcome

/-- Mutable state of a run: the two process handles of MonitoringSystem
(lines 31-32, a handle is the index of the launch that populated it),
counters for the HTTP requests, service-manager queries and launches made so
far, and the trace of effects. -/
structure SysState where
  prometheus_process : Option Nat
  alertmanager_process : Option Nat
  probes : Nat
  queries : Nat
  launches : Nat
  events : List Event
deriving DecidableEq

/-- State at the start of a run (MonitoringSystem.__init__, lines 30-32):
both handles empty, nothing observed yet. -/
def initState : SysState :=
  { prometheus_process := none, alertmanager_process := none
    probes := 0, queries := 0, launches := 0, events := [] }

/-- The answer check_url_accessible gives for the t-th HTTP request of a
run when directed at the given url. -/
def accessibleAt (env : Env) (t : Nat) (url : String) : Bool :=
  check_url_accessible (env.http t url)

/-- One call of check_url_accessible inside the run: consumes one probe
tick and records the probe together with its result. -/
def probeUrl (env : Env) (url : String) (s : SysState) : Bool × SysState :=
  (accessibleAt env s.probes url,
   { s with
     probes := s.probes + 1
     events := s.events ++ [Event.probe url (accessibleAt env s.probes url)] })

/-- MonitoringSystem.check_service_running (lines 90-102): runs sc query and
reports whether RUNNING occurs in its stdout; an exception is caught and
collapsed to False (both folded into the answer scQueryRunning gives). -/
def check_service_running (env : Env) (s : SysState) : Bool × SysState :=
  (env.scQueryRunning s.queries,
   { s with
     queries := s.queries + 1
     events := s.events ++ [Event.scQuery (env.scQueryRunning s.queries)] })

/-- MonitoringSystem.start_windows_exporter (lines 104-131): succeed at once
when the service is already reported running; otherwise issue sc start and,
when its stdout shows START_PENDING or RUNNING, sleep 3 seconds and report
success; a rejected start command (or an exception while starting, folded
into scStartAccepted = false) reports failure. -/
def start_windows_exporter (env : Env) (s : SysState) : Bool × SysState :=
  let q := check_service_running env s
  if q.1 then (true, q.2)
  else
    let s2 : SysState := { q.2 with events := q.2.events ++ [Event.scStart] }
    if env.scStartAccepted then
      (true, { s2 with events := s2.events ++ [Event.sleep 3] })
    else (false, s2)

/-- The retry loop shared by start_alertmanager (lines 170-180, with
max_retries = 10) and start_prometheus (lines 215-225, with
max_retries = 15): each cycle sleeps 2 seconds and then probes the url; the
loop returns True on the first successful probe and False once the attempts
are exhausted. -/
def waitLoop (env : Env) (url : String) : Nat → SysState → Bool × SysState
  | 0, s => (false, s)
  | Nat.succ n, s =>
    let r := probeUrl env url { s with events := s.events ++ [Event.sleep 2] }
    if r.1 then (true, r.2) else waitLoop env url n r.2

/-- The events k cycles of the retry loop append: one sleep and one recorded
probe per cycle, the probes numbered from tick t0. -/
def pollTrace (env : Env) (url : String) : Nat → Nat → List Event
  | _, 0 => []
  | t0, Nat.succ n =>
    Event.sleep 2 :: Event.probe url (accessibleAt env t0 url) ::
      pollTrace env url (t0 + 1) n

/-- MonitoringSystem.start_alertmanager (lines 141-184): succeed at once when
the url is already accessible; fail when the executable is missing; otherwise
Popen the executable (a raise from Popen is caught by the except clause,
modelled by alertmanagerSpawnOk = false, and leaves the handle untouched),
store the handle in self.alertmanager_process, and run the 10-attempt wait
loop against the alertmanager url. -/
def start_alertmanager (env : Env) (s : SysState) : Bool × SysState :=
  let r := probeUrl env alertmanager_url s
  if r.1 then (true, r.2)
  else if !env.alertmanagerExists then (false, r.2)
  else if !env.alertmanagerSpawnOk then (false, r.2)
  else
    waitLoop env alertmanager_url 10
      { r.2 with
        alertmanager_process := some r.2.launches
        launches := r.2.launches + 1
        events := r.2.events ++ [Event.popen "alertmanager"] }

/-- MonitoringSystem.start_prometheus (lines 186-229): the same shape as
start_alertmanager, against the prometheus url, with a 15-attempt wait
loop, storing the handle in self.prometheus_process. -/
def start_prometheus (env : Env) (s : SysState) : Bool × SysState :=
  let r := probeUrl env prometheus_url s
  if r.1 then (true, r.2)
  else if !env.prometheusExists then (false, r.2)
  else if !env.prometheusSpawnOk then (false, r.2)
  else
    waitLoop env prometheus_url 15
      { r.2 with
        prometheus_process := some r.2.launches
        launches := r.2.launches + 1
        events := r.2.events ++ [Event.popen "prometheus"] }

/-- MonitoringSystem.verify_services (lines 231-249): probe the exporter,
prometheus and alertmanager urls, in dict insertion order, unconditionally
(a failed probe only clears all_ok and the loop continues); the result is
the conjunction of the three probes. -/
def verify_services (env : Env) (s : SysState) : Bool × SysState :=
  let r1 := probeUrl env exporter_url s
  let r2 := probeUrl env prometheus_url r1.2
  let r3 := probeUrl env alertmanager_url r2.2
  (r1.1 && r2.1 && r3.1, r3.2)

/-- MonitoringSystem.start_all_services (lines 319-339): run the three stage
functions in order, returning False as soon as one fails, and finish with
verify_services, whose result is the overall result. -/
def start_all_services (env : Env) (s : SysState) : Bool × SysState :=
  let r1 := start_windows_exporter env s
  if !r1.1 then (false, r1.2)
  else
    let r2 := start_alertmanager env r1.2
    if !r2.1 then (false, r2.2)
    else
      let r3 := start_prometheus env r2.2
      if !r3.1 then (false, r3.2)
      else verify_services env r3.2

/-- MonitoringSystem.stop_services (lines 341-351): terminate each process
whose handle is populated. Neither branch assigns to the handle fields, so
the handles keep their values. -/
def stop_services (s : SysState) : SysState :=
  let s1 :=
    match s.prometheus_process with
    | some _ => { s with events := s.events ++ [Event.terminate "prometheus"] }
    | none => s
  match s1.alertmanager_process with
  | some _ => { s1 with events := s1.events ++ [Event.terminate "alertmanager"] }
  | none => s1

/-- The url answers every HTTP request of the run with status 200. -/
def stablyReachable (env : Env) (url : String) : Prop :=
  ∀ t, accessibleAt env t url = true

/-- Parsed outcome of one metric query inside get_system_metrics: either some
part of the try block raised (the request, the JSON decode, a field access,
or the float conversion), or a JSON payload was obtained carrying the given
status field and list of numeric result values. -/
inductive FetchOutcome where
  | exn
  | payload (status : String) (result : List Int)
deriving DecidableEq

/-- One line of the metrics display: a numeric value line or the
Unable-to-fetch line, each labelled with the metric name. -/
inductive MetricDisplay where
  | value (name : String) (v : Int)
  | unavailable (name : String)
deriving DecidableEq

/-- The metric name a display line is labelled with. -/
def MetricDisplay.nameOf : MetricDisplay → String
  | MetricDisplay.value n _ => n
  | MetricDisplay.unavailable n => n

/-- Body of one iteration of the loop in get_system_metrics (lines 265-277):
an exception anywhere in the try block prints the Unable-to-fetch line; with
a parsed payload, a value line is printed only when the status field is
success and the result list is non-empty; otherwise nothing is printed for
this metric. -/
def metricLine (name : String) (o : FetchOutcome) : Option MetricDisplay :=
  match o with
  | FetchOutcome.exn => some (MetricDisplay.unavailable name)
  | FetchOutcome.payload st res =>
    if st == "success" then
      match res with
      | v :: _ => some (MetricDisplay.value name v)
      | [] => none
    else none

/-- The queries dict of get_system_metrics (lines 255-259), in insertion
order. -/
def metric_queries : List (String × String) :=
  [("CPU Usage",
    "100 - (avg(rate(windows_cpu_time_total\x7bmode=\"idle\"\x7d[1m])) * 100)"),
   ("Memory Usage",
    "100 - ((windows_memory_available_bytes / windows_memory_physical_total_bytes) * 100)"),
   ("Disk Usage",
    "100 - ((windows_logical_disk_free_bytes\x7bvolume=\"C:\"\x7d / windows_logical_disk_size_bytes\x7bvolume=\"C:\"\x7d) * 100)")]

/-- The for loop of get_system_metrics: one independent try/except per
query, each producing at most one display line; o gives the fetch outcome of
the query labelled with a given name. -/
def metricsLoop (o : String → FetchOutcome) :
    List (String × String) → List MetricDisplay
  | [] => []
  | (n, _) :: rest =>
    match metricLine n (o n) with
    | some d => d :: metricsLoop o rest
    | none => metricsLoop o rest

/-- MonitoringSystem.get_system_metrics (lines 251-279), as the list of
metric lines it prints. -/
def get_system_metrics (o : String → FetchOutcome) : List MetricDisplay :=
  metricsLoop o metric_queries

/-- One alert as extracted by check_alerts from the JSON body. -/
structure Alert where
  state : String
  alertname : String
  severity : Option String
deriving DecidableEq

/-- Outcome of the alert fetch in check_alerts: the request or a JSON field
access raised, or the request completed with a non-200 status code, or a
well-formed alert list was obtained. -/
inductive AlertsOutcome where
  | exn
  | notOk (status : Nat)
  | ok (alerts : List Alert)
deriving DecidableEq

/-- What check_alerts shows: the alert table, the No-active-alerts line, or
only an error log line (the fetch was unavailable). -/
inductive AlertsDisplay where
  | table (lines : List (String × String × String))
  | noActive
  | unavailable
deriving DecidableEq

/-- MonitoringSystem.check_alerts (lines 281-305), as the display it
produces: any raise and any non-200 status are logged as an error and
nothing else happens (unavailable); an empty alert list prints the
No-active-alerts line; otherwise one line per alert with the alert name, the
upper-cased state, and the severity label or unknown. -/
def check_alerts (o : AlertsOutcome) : AlertsDisplay :=
  match o with
  | AlertsOutcome.exn => AlertsDisplay.unavailable
  | AlertsOutcome.notOk _ => AlertsDisplay.unavailable
  | AlertsOutcome.ok [] => AlertsDisplay.noActive
  | AlertsOutcome.ok alerts =>
    AlertsDisplay.table (alerts.map fun a =>
      (a.alertname, a.state.toUpper, a.severity.getD "unknown"))

/-- The url check_alerts sends its GET to (line 284): the f-string
interpolates self.prometheus_url, not self.alertmanager_url. -/
def check_alerts_url : String := prometheus_url ++ "/api/v1/alerts"

/-- Environment for exercising the wait loop: the third HTTP request (tick
2) answers 200, every other request raises. -/
def envW : Env :=
  { scQueryRunning := fun _ => false, scStartAccepted := true
    alertmanagerExists := true, prometheusExists := true
    alertmanagerSpawnOk := true, prometheusSpawnOk := true
    http := fun t _ => if t == 2 then HttpOutcome.ok 200 else HttpOutcome.exn }

/-- Environment in which the exporter service is already running but the
alertmanager is unreachable and its executable is missing. -/
def env2 : Env :=
  { scQueryRunning := fun _ => true, scStartAccepted := true
    alertmanagerExists := false, prometheusExists := true
    alertmanagerSpawnOk := true, prometheusSpawnOk := true
    http := fun _ _ => HttpOutcome.exn }

/-- Environment in which the exporter service is reported running and every
url except the exporter metrics url answers 200; the exporter metrics url
always raises. -/
def env3 : Env :=
  { scQueryRunning := fun _ => true, scStartAccepted := true
    alertmanagerExists := true, prometheusExists := true
    alertmanagerSpawnOk := true, prometheusSpawnOk := true
    http := fun _ u => if u == exporter_url then HttpOutcome.exn
                       else HttpOutcome.ok 200 }

/-- Environment in which the exporter service is reported running and every
url answers 200 on every request. -/
def envAll : Env :=
  { scQueryRunning := fun _ => true, scStartAccepted := true
    alertmanagerExists := true, prometheusExists := true
    alertmanagerSpawnOk := true, prometheusSpawnOk := true
    http := fun _ _ => HttpOutcome.ok 200 }

/-- Environment in which the service manager never reports the exporter
service running but accepts the start command. -/
def env6 : Env :=
  { scQueryRunning := fun _ => false, scStartAccepted := true
    alertmanagerExists := true, prometheusExists := true
    alertmanagerSpawnOk := true, prometheusSpawnOk := true
    http := fun _ _ => HttpOutcome.exn }

/-- Environment in which the very first HTTP request raises (so the
alertmanager is launched) and every later request answers 200. -/
def env9 : Env :=
  { scQueryRunning := fun _ => true, scStartAccepted := true
    alertmanagerExists := true, prometheusExists := true
    alertmanagerSpawnOk := true, prometheusSpawnOk := true
    http := fun t _ => if t == 0 then HttpOutcome.exn else HttpOutcome.ok 200 }

/-- Fetch outcomes in which every metric query raises. -/
def oW : String → FetchOutcome := fun _ => FetchOutcome.exn

/-- Fetch outcomes in which every metric query parses to a payload whose
status field is not success. -/
def oBad : String → FetchOutcome := fun _ => FetchOutcome.payload "error" []

theorem waitLoop_timeout (env : Env) (url : String) :
    ∀ (n : Nat) (s : SysState),
      (∀ j < n, accessibleAt env (s.probes + j) url = false) →
      waitLoop env url n s =
        (false, { s with
                  probes := s.probes + n
                  events := s.events ++ pollTrace env url s.probes n }) := by
  intro n
  induction n with
  | zero =>
    intro s _
    simp [waitLoop, pollTrace]
  | succ m ih =>
    intro s h
    have h0 : accessibleAt env s.probes url = false := by
      simpa using h 0 (Nat.succ_pos m)
    have hrec := ih
      { s with
        probes := s.probes + 1
        events := s.events ++
          [Event.sleep 2, Event.probe url (accessibleAt env s.probes url)] }
      (by
        intro j hj
        simpa [Nat.add_assoc, Nat.add_comm 1 j] using h (j + 1) (by omega))
    simp only [waitLoop, probeUrl, h0]
    simp only [h0] at hrec
    simp [hrec, pollTrace, h0, Nat.add_assoc, Nat.add_comm 1 m]

theorem waitLoop_first_success (env : Env) (url : String) :
    ∀ (n k : Nat) (s : SysState), 1 ≤ k → k ≤ n →
      (∀ j < k - 1, accessibleAt env (s.probes + j) url = false) →
      accessibleAt env (s.probes + (k - 1)) url = true →
      waitLoop env url n s =
        (true, { s with
                 probes := s.probes + k
                 events := s.events ++ pollTrace env url s.probes k }) := by
  intro n
  induction n with
  | zero =>
    intro k s hk1 hkn _ _
    omega
  | succ m ih =>
    intro k s hk1 hkn hbefore hit
    rcases k with _ | k0
    · omega
    rcases k0 with _ | k1
    · -- k = 1: the very first probe succeeds
      have h0 : accessibleAt env s.probes url = true := by simpa using hit
      simp only [waitLoop, probeUrl, h0]
      simp [pollTrace, h0]
    · -- k = k1 + 2: the first probe fails, recurse with the shifted state
      have h0 : accessibleAt env s.probes url = false := by
        simpa using hbefore 0 (by omega)
      have hrec := ih (k1 + 1)
        { s with
          probes := s.probes + 1
          events := s.events ++
            [Event.sleep 2, Event.probe url (accessibleAt env s.probes url)] }
        (by omega) (by omega)
        (by
          intro j hj
          simpa [Nat.add_assoc, Nat.add_comm 1 j] using hbefore (j + 1) (by omega))
        (by
          have : s.probes + 1 + (k1 + 1 - 1) = s.probes + (k1 + 2 - 1) := by omega
          rw [this]
          exact hit)
      simp only [waitLoop, probeUrl, h0]
      simp only [h0] at hrec
      simp [hrec, pollTrace, h0, Nat.add_assoc, Nat.add_comm 1 k1]
      omega

/-- Claim C1: the readiness poll loop (the retry loops of start_alertmanager,
max_retries = 10, and start_prometheus, max_retries = 15, both runs of
waitLoop) returns success after exactly k sleep-then-probe cycles when the
probe first succeeds on attempt k with k at most N (the trace grows by
exactly the k cycles of pollTrace), and returns failure after exactly N
probes, with no further probing, when no probe of the run succeeds. -/
theorem poll_loop_exact (env : Env) (url : String) (N : Nat) (s : SysState) :
    (∀ k, 1 ≤ k → k ≤ N →
      (∀ j < k - 1, accessibleAt env (s.probes + j) url = false) →
      accessibleAt env (s.probes + (k - 1)) url = true →
      waitLoop env url N s =
        (true, { s with
                 probes := s.probes + k
                 events := s.events ++ pollTrace env url s.probes k })) ∧
    ((∀ j < N, accessibleAt env (s.probes + j) url = false) →
      waitLoop env url N s =
        (false, { s with
                  probes := s.probes + N
                  events := s.events ++ pollTrace env url s.probes N })) :=
  ⟨fun k hk1 hkN hb ht => waitLoop_first_success env url N k s hk1 hkN hb ht,
   fun h => waitLoop_timeout env url N s h⟩

/-- Witness for C1: in envW the probe of the alertmanager url first succeeds
on attempt 3 of 10, and the loop stops right there with three cycles in the
trace. -/
theorem poll_loop_exact_witness :
    waitLoop envW alertmanager_url 10 initState =
      (true, { initState with
               probes := 3
               events := pollTrace envW alertmanager_url 0 3 }) :=
  (poll_loop_exact envW alertmanager_url 10 initState).1 3
    (by decide) (by decide) (by decide) (by decide)

theorem waitLoop_frame (env : Env) (url : String) (p : Event → Bool)
    (hsl : p (Event.sleep 2) = false)
    (hpr : ∀ b, p (Event.probe url b) = false) :
    ∀ (n : Nat) (s : SysState),
      (waitLoop env url n s).2.events.countP p = s.events.countP p ∧
      (waitLoop env url n s).2.prometheus_process = s.prometheus_process ∧
      (waitLoop env url n s).2.alertmanager_process = s.alertmanager_process ∧
      (waitLoop env url n s).2.launches = s.launches ∧
      (waitLoop env url n s).2.queries = s.queries := by
  intro n
  induction n with
  | zero =>
    intro s
    simp [waitLoop]
  | succ m ih =>
    intro s
    simp only [waitLoop, probeUrl]
    cases hc : accessibleAt env s.probes url with
    | true =>
      simp [List.countP_append, List.countP_cons, hsl, hpr]
    | false =>
      obtain ⟨h1, h2, h3, h4, h5⟩ := ih
        { s with
          probes := s.probes + 1
          events := s.events ++ [Event.sleep 2] ++ [Event.probe url false] }
      simp only [List.append_assoc, List.singleton_append] at h1 h2 h3 h4 h5
      simp [h1, h2, h3, h4, h5, List.countP_append, List.countP_cons, hsl, hpr]

theorem start_windows_exporter_frame (env : Env) (s : SysState)
    (p : Event → Bool)
    (hq : ∀ b, p (Event.scQuery b) = false)
    (hst : p Event.scStart = false)
    (hsl : p (Event.sleep 3) = false) :
    (start_windows_exporter env s).2.events.countP p = s.events.countP p ∧
    (start_windows_exporter env s).2.prometheus_process = s.prometheus_process ∧
    (start_windows_exporter env s).2.alertmanager_process = s.alertmanager_process ∧
    (start_windows_exporter env s).2.launches = s.launches ∧
    (start_windows_exporter env s).2.probes = s.probes := by
  cases hb : env.scQueryRunning s.queries <;>
    cases hs : env.scStartAccepted <;>
      simp [start_windows_exporter, check_service_running, hb, hs,
        List.countP_append, List.countP_cons, hq, hst, hsl]

theorem start_alertmanager_frame (env : Env) (s : SysState) (p : Event → Bool)
    (hpr : ∀ b, p (Event.probe alertmanager_url b) = false)
    (hsl : p (Event.sleep 2) = false)
    (hpo : p (Event.popen "alertmanager") = false) :
    (start_alertmanager env s).2.events.countP p = s.events.countP p ∧
    (start_alertmanager env s).2.prometheus_process = s.prometheus_process := by
  simp only [start_alertmanager, probeUrl]
  cases hc : accessibleAt env s.probes alertmanager_url with
  | true =>
    simp [List.countP_append, List.countP_cons, hpr]
  | false =>
    cases he : env.alertmanagerExists with
    | false => simp [List.countP_append, List.countP_cons, hpr]
    | true =>
      cases hsp : env.alertmanagerSpawnOk with
      | false => simp [List.countP_append, List.countP_cons, hpr]
      | true =>
        obtain ⟨h1, h2, _, _, _⟩ := waitLoop_frame env alertmanager_url p hsl hpr 10
          { s with
            alertmanager_process := some s.launches
            probes := s.probes + 1
            launches := s.launches + 1
            events := s.events ++ [Event.probe alertmanager_url false]
              ++ [Event.popen "alertmanager"] }
        simp only [List.append_assoc, List.singleton_append] at h1 h2
        simp [h1, h2, List.countP_append, List.countP_cons, hpr, hpo]

theorem start_prometheus_frame (env : Env) (s : SysState) (p : Event → Bool)
    (hpr : ∀ b, p (Event.probe prometheus_url b) = false)
    (hsl : p (Event.sleep 2) = false)
    (hpo : p (Event.popen "prometheus") = false) :
    (start_prometheus env s).2.events.countP p = s.events.countP p ∧
    (start_prometheus env s).2.alertmanager_process = s.alertmanager_process := by
  simp only [start_prometheus, probeUrl]
  cases hc : accessibleAt env s.probes prometheus_url with
  | true =>
    simp [List.countP_append, List.countP_cons, hpr]
  | false =>
    cases he : env.prometheusExists with
    | false => simp [List.countP_append, List.countP_cons, hpr]
    | true =>
      cases hsp : env.prometheusSpawnOk with
      | false => simp [List.countP_append, List.countP_cons, hpr]
      | true =>
        obtain ⟨h1, _, h3, _, _⟩ := waitLoop_frame env prometheus_url p hsl hpr 15
          { s with
            prometheus_process := some s.launches
            probes := s.probes + 1
            launches := s.launches + 1
            events := s.events ++ [Event.probe prometheus_url false]
              ++ [Event.popen "prometheus"] }
        simp only [List.append_assoc, List.singleton_append] at h1 h3
        simp [h1, h3, List.countP_append, List.countP_cons, hpr, hpo]

theorem start_alertmanager_popen_le (env : Env) (s : SysState) :
    (start_alertmanager env s).2.events.countP (Event.isPopenOf "alertmanager")
      ≤ s.events.countP (Event.isPopenOf "alertmanager") + 1 := by
  simp only [start_alertmanager, probeUrl]
  cases hc : accessibleAt env s.probes alertmanager_url with
  | true =>
    simp [List.countP_append, List.countP_cons, Event.isPopenOf]
  | false =>
    cases he : env.alertmanagerExists with
    | false => simp [List.countP_append, List.countP_cons, Event.isPopenOf]
    | true =>
      cases hsp : env.alertmanagerSpawnOk with
      | false => simp [List.countP_append, List.countP_cons, Event.isPopenOf]
      | true =>
        obtain ⟨h1, _, _, _, _⟩ := waitLoop_frame env alertmanager_url
          (Event.isPopenOf "alertmanager") rfl (fun _ => rfl) 10
          { s with
            alertmanager_process := some s.launches
            probes := s.probes + 1
            launches := s.launches + 1
            events := s.events ++ [Event.probe alertmanager_url false]
              ++ [Event.popen "alertmanager"] }
        simp only [List.append_assoc, List.singleton_append] at h1
        simp [h1, List.countP_append, List.countP_cons, Event.isPopenOf]

theorem start_prometheus_popen_le (env : Env) (s : SysState) :
    (start_prometheus env s).2.events.countP (Event.isPopenOf "prometheus")
      ≤ s.events.countP (Event.isPopenOf "prometheus") + 1 := by
  simp only [start_prometheus, probeUrl]
  cases hc : accessibleAt env s.probes prometheus_url with
  | true =>
    simp [List.countP_append, List.countP_cons, Event.isPopenOf]
  | false =>
    cases he : env.prometheusExists with
    | false => simp [List.countP_append, List.countP_cons, Event.isPopenOf]
    | true =>
      cases hsp : env.prometheusSpawnOk with
      | false => simp [List.countP_append, List.countP_cons, Event.isPopenOf]
      | true =>
        obtain ⟨h1, _, _, _, _⟩ := waitLoop_frame env prometheus_url
          (Event.isPopenOf "prometheus") rfl (fun _ => rfl) 15
          { s with
            prometheus_process := some s.launches
            probes := s.probes + 1
            launches := s.launches + 1
            events := s.events ++ [Event.probe prometheus_url false]
              ++ [Event.popen "prometheus"] }
        simp only [List.append_assoc, List.singleton_append] at h1
        simp [h1, List.countP_append, List.countP_cons, Event.isPopenOf]

theorem verify_services_frame (env : Env) (s : SysState) (p : Event → Bool)
    (hp : ∀ u b, p (Event.probe u b) = false) :
    (verify_services env s).2.events.countP p = s.events.countP p ∧
    (verify_services env s).2.prometheus_process = s.prometheus_process ∧
    (verify_services env s).2.alertmanager_process = s.alertmanager_process := by
  simp [verify_services, probeUrl, List.countP_append, List.countP_cons, hp]

theorem stop_services_handles (s : SysState) :
    (stop_services s).prometheus_process = s.prometheus_process ∧
    (stop_services s).alertmanager_process = s.alertmanager_process := by
  unfold stop_services
  cases hp : s.prometheus_process <;> cases ha : s.alertmanager_process <;>
    simp [hp, ha]

theorem start_all_popen_le (env : Env) (s : SysState) :
    (start_all_services env s).2.events.countP (Event.isPopenOf "alertmanager")
      ≤ s.events.countP (Event.isPopenOf "alertmanager") + 1 ∧
    (start_all_services env s).2.events.countP (Event.isPopenOf "prometheus")
      ≤ s.events.countP (Event.isPopenOf "prometheus") + 1 := by
  have hE1 := start_windows_exporter_frame env s (Event.isPopenOf "alertmanager")
    (fun _ => rfl) rfl rfl
  have hE2 := start_windows_exporter_frame env s (Event.isPopenOf "prometheus")
    (fun _ => rfl) rfl rfl
  have hA1 := start_alertmanager_popen_le env (start_windows_exporter env s).2
  have hA2 := start_alertmanager_frame env (start_windows_exporter env s).2
    (Event.isPopenOf "prometheus") (fun _ => rfl) rfl (by decide)
  have hP1 := start_prometheus_frame env
    (start_alertmanager env (start_windows_exporter env s).2).2
    (Event.isPopenOf "alertmanager") (fun _ => rfl) rfl (by decide)
  have hP2 := start_prometheus_popen_le env
    (start_alertmanager env (start_windows_exporter env s).2).2
  have hV1 := verify_services_frame env
    (start_prometheus env (start_alertmanager env (start_windows_exporter env s).2).2).2
    (Event.isPopenOf "alertmanager") (fun _ _ => rfl)
  have hV2 := verify_services_frame env
    (start_prometheus env (start_alertmanager env (start_windows_exporter env s).2).2).2
    (Event.isPopenOf "prometheus") (fun _ _ => rfl)
  cases hb1 : (start_windows_exporter env s).1 with
  | false =>
    have heq : (start_all_services env s).2 = (start_windows_exporter env s).2 := by
      simp [start_all_services, hb1]
    rw [heq]
    exact ⟨by omega, by omega⟩
  | true =>
    cases hb2 : (start_alertmanager env (start_windows_exporter env s).2).1 with
    | false =>
      have heq : (start_all_services env s).2 =
          (start_alertmanager env (start_windows_exporter env s).2).2 := by
        simp [start_all_services, hb1, hb2]
      rw [heq]
      exact ⟨by omega, by omega⟩
    | true =>
      cases hb3 : (start_prometheus env
          (start_alertmanager env (start_windows_exporter env s).2).2).1 with
      | false =>
        have heq : (start_all_services env s).2 = (start_prometheus env
            (start_alertmanager env (start_windows_exporter env s).2).2).2 := by
          simp [start_all_services, hb1, hb2, hb3]
        rw [heq]
        exact ⟨by omega, by omega⟩
      | true =>
        have heq : (start_all_services env s).2 = (verify_services env (start_prometheus env
            (start_alertmanager env (start_windows_exporter env s).2).2).2).2 := by
          simp [start_all_services, hb1, hb2, hb3]
        rw [heq]
        exact ⟨by omega, by omega⟩

/-- Claim C2: in a run of start_all_services in which the exporter stage
succeeds and the alertmanager stage fails, the overall result is the
failure produced by the alertmanager stage, the prometheus process is never
launched (no popen event for it in the whole trace) and its handle stays
empty. -/
theorem pipeline_fail_fast (env : Env)
    (h1 : (start_windows_exporter env initState).1 = true)
    (h2 : (start_alertmanager env (start_windows_exporter env initState).2).1 = false) :
    start_all_services env initState =
      (false, (start_alertmanager env (start_windows_exporter env initState).2).2) ∧
    (start_all_services env initState).2.events.countP
      (Event.isPopenOf "prometheus") = 0 ∧
    (start_all_services env initState).2.prometheus_process = none := by
  have hE := start_windows_exporter_frame env initState
    (Event.isPopenOf "prometheus") (fun _ => rfl) rfl rfl
  have hA := start_alertmanager_frame env (start_windows_exporter env initState).2
    (Event.isPopenOf "prometheus") (fun _ => rfl) rfl (by decide)
  have heq : start_all_services env initState =
      (false, (start_alertmanager env (start_windows_exporter env initState).2).2) := by
    simp [start_all_services, h1, h2]
  refine ⟨heq, ?_, ?_⟩
  · rw [heq]
    dsimp only
    have : initState.events.countP (Event.isPopenOf "prometheus") = 0 := by decide
    omega
  · rw [heq]
    dsimp only
    have : initState.prometheus_process = none := rfl
    simp only [hA.2, hE.2.1, this]

/-- Witness for C2: with the exporter already running, the alertmanager
unreachable and its executable missing, the pipeline stops at the
alertmanager stage and prometheus is never launched. -/
theorem pipeline_fail_fast_witness :
    (start_all_services env2 initState).1 = false ∧
    (start_all_services env2 initState).2.events.countP
      (Event.isPopenOf "prometheus") = 0 ∧
    (start_all_services env2 initState).2.prometheus_process = none := by
  have h := pipeline_fail_fast env2 (by decide) (by decide)
  exact ⟨by rw [h.1], h.2.1, h.2.2⟩

/-- Counterexample to claim C9 as stated: in env9 the alertmanager is
launched (its handle is populated) and stop_services terminates it, yet the
handle is not cleared by the explicit termination: it still holds the
launch index afterwards, so the handle is cleared zero times, not exactly
once. -/
theorem handle_cleared_counterexample :
    (start_all_services env9 initState).2.events.countP
      (Event.isPopenOf "alertmanager") = 1 ∧
    (stop_services (start_all_services env9 initState).2).events.countP
      (Event.isTerminateOf "alertmanager") = 1 ∧
    (stop_services (start_all_services env9 initState).2).alertmanager_process
      = some 0 := by decide

/-- Claim C9, amended: each managed-process handle is populated at most once
(both popen counts of a run are at most one), and once populated it is never
mutated again: stop_services terminates the process a populated handle
refers to but leaves both handle fields exactly as they were, so a handle is
never cleared. -/
theorem handles_assigned_once_never_cleared (env : Env) :
    (stop_services (start_all_services env initState).2).prometheus_process
      = (start_all_services env initState).2.prometheus_process ∧
    (stop_services (start_all_services env initState).2).alertmanager_process
      = (start_all_services env initState).2.alertmanager_process ∧
    (start_all_services env initState).2.events.countP
      (Event.isPopenOf "alertmanager") ≤ 1 ∧
    (start_all_services env initState).2.events.countP
      (Event.isPopenOf "prometheus") ≤ 1 := by
  have hs := stop_services_handles (start_all_services env initState).2
  have hc := start_all_popen_le env initState
  have h0a : initState.events.countP (Event.isPopenOf "alertmanager") = 0 := by decide
  have h0p : initState.events.countP (Event.isPopenOf "prometheus") = 0 := by decide
  exact ⟨hs.1, hs.2, by omega, by omega⟩

/-- Counterexample to claim C3 as stated: in env3 the exporter service is
reported running and the alertmanager and prometheus urls are reachable on
every probe, and indeed no process is launched and no sc start is issued,
but start_all_services does not reach the all-up result: the final
simultaneous probe of the exporter metrics url fails and the run returns
false. -/
theorem all_up_claim_counterexample :
    env3.scQueryRunning 0 = true ∧
    stablyReachable env3 alertmanager_url ∧
    stablyReachable env3 prometheus_url ∧
    (start_all_services env3 initState).1 = false ∧
    (start_all_services env3 initState).2.launches = 0 ∧
    (start_all_services env3 initState).2.events.countP Event.isPopen = 0 ∧
    (start_all_services env3 initState).2.events.countP Event.isScStart = 0 :=
  ⟨rfl, fun _ => rfl, fun _ => rfl, by decide, by decide, by decide, by decide⟩

/-- Claim C3, amended: when the exporter service is already reported Running
and all three urls (alert router, metrics engine, and also the exporter
metrics url) answer every probe, start_all_services issues zero process
launches and zero sc start commands (the trace holds no popen and no
scStart event and the launch counter stays 0) and returns the all-up result
immediately after the final simultaneous probe of the three endpoints. -/
theorem all_up_zero_launches (env : Env)
    (hq : env.scQueryRunning 0 = true)
    (ham : stablyReachable env alertmanager_url)
    (hprom : stablyReachable env prometheus_url)
    (hexp : stablyReachable env exporter_url) :
    start_all_services env initState =
      (true,
       { prometheus_process := none
         alertmanager_process := none
         probes := 5
         queries := 1
         launches := 0
         events := [Event.scQuery true, Event.probe alertmanager_url true,
                    Event.probe prometheus_url true, Event.probe exporter_url true,
                    Event.probe prometheus_url true, Event.probe alertmanager_url true] }) := by
  have h0 := ham 0
  have h4 := ham 4
  have h1 := hprom 1
  have h3 := hprom 3
  have h2 := hexp 2
  simp [start_all_services, start_windows_exporter, check_service_running,
    start_alertmanager, start_prometheus, verify_services, probeUrl, initState,
    hq, h0, h1, h2, h3, h4]

/-- Witness for the amended C3: envAll keeps every dependency up and the run
reaches the all-up result with the stated five-probe, zero-launch trace. -/
theorem all_up_zero_launches_witness :
    start_all_services envAll initState =
      (true,
       { prometheus_process := none
         alertmanager_process := none
         probes := 5
         queries := 1
         launches := 0
         events := [Event.scQuery true, Event.probe alertmanager_url true,
                    Event.probe prometheus_url true, Event.probe exporter_url true,
                    Event.probe prometheus_url true, Event.probe alertmanager_url true] }) :=
  all_up_zero_launches envAll rfl (fun _ => rfl) (fun _ => rfl) (fun _ => rfl)

/-- Claim C4: verify_services probes the three tracked endpoints (exporter
metrics path, metrics engine root, alert router root) unconditionally —
the trace grows by exactly the three probe events with their answers even
when an earlier probe fails — and its result is the conjunction of the
three probes, so it is the all-up result exactly when every probe
succeeds. -/
theorem verify_services_probes_all (env : Env) (s : SysState) :
    (verify_services env s).1 =
      (accessibleAt env s.probes exporter_url &&
       accessibleAt env (s.probes + 1) prometheus_url &&
       accessibleAt env (s.probes + 2) alertmanager_url) ∧
    (verify_services env s).2.events = s.events ++
      [Event.probe exporter_url (accessibleAt env s.probes exporter_url),
       Event.probe prometheus_url (accessibleAt env (s.probes + 1) prometheus_url),
       Event.probe alertmanager_url (accessibleAt env (s.probes + 2) alertmanager_url)] := by
  simp [verify_services, probeUrl, Nat.add_assoc]

/-- Claim C5: check_url_accessible answers true exactly when the GET request
completed with HTTP status 200; every transport error or timeout (the exn
outcome) and every completed non-200 status yields false — the function is
total over every outcome, so no failure mode escapes to the caller. -/
theorem probe_true_iff_200 (o : HttpOutcome) :
    check_url_accessible o = true ↔ o = HttpOutcome.ok 200 := by
  cases o with
  | exn => simp [check_url_accessible]
  | ok st => simp [check_url_accessible]

/-- Witness for C5 at the successful outcome. -/
theorem probe_true_iff_200_witness :
    check_url_accessible (HttpOutcome.ok 200) = true :=
  (probe_true_iff_200 (HttpOutcome.ok 200)).mpr rfl

/-- Counterexample to claim C6 as stated: in env6 no service-manager query of
the run ever reports the service Running (the initial one answers false and
it is the only query made, so there is no re-query at all), the start
command is accepted, and the stage nevertheless reports success. -/
theorem exporter_requery_counterexample :
    (start_windows_exporter env6 initState).1 = true ∧
    (start_windows_exporter env6 initState).2.queries = 1 ∧
    (start_windows_exporter env6 initState).2.events.countP
      Event.isScQueryTrue = 0 := by decide

/-- Claim C6, amended: the exporter stage reports success exactly when the
initial query reports the service running or the start command is accepted
by the service manager; in the accepted case it sleeps 3 seconds and
reports success without re-querying — every run performs exactly one
service-manager query. -/
theorem exporter_success_no_requery (env : Env) (s : SysState) :
    (start_windows_exporter env s).1 =
      (env.scQueryRunning s.queries || env.scStartAccepted) ∧
    (start_windows_exporter env s).2.queries = s.queries + 1 := by
  cases hb : env.scQueryRunning s.queries <;>
    cases hs : env.scStartAccepted <;>
      simp [start_windows_exporter, check_service_running, hb, hs]

/-- Counterexample to claim C7 as stated: the url check_alerts sends its GET
to is not the alertmanager (alert router) base url with the alerts path
appended. -/
theorem alerts_url_counterexample :
    (check_alerts_url == alertmanager_url ++ "/api/v1/alerts") = false := by
  decide

/-- Claim C7, amended: check_alerts sends its GET to the prometheus (metrics
engine) base url with the alerts path appended, which resolves to the
prometheus alerts endpoint, not to the alertmanager one. -/
theorem alerts_url_is_prometheus :
    check_alerts_url = prometheus_url ++ "/api/v1/alerts" ∧
    check_alerts_url = "http://localhost:9090/api/v1/alerts" ∧
    (check_alerts_url == alertmanager_url ++ "/api/v1/alerts") = false := by
  refine ⟨rfl, by decide, by decide⟩

theorem metricLine_name (n : String) (o : FetchOutcome) (d : MetricDisplay)
    (h : metricLine n o = some d) : d.nameOf = n := by
  cases o with
  | exn =>
    simp [metricLine] at h
    subst h
    rfl
  | payload st res =>
    by_cases hst : (st == "success") = true
    · cases res with
      | nil => simp [metricLine, hst] at h
      | cons v rest =>
        simp [metricLine, hst] at h
        subst h
        rfl
    · simp [metricLine, hst] at h

theorem metricsLoop_filter_congr (o o' : String → FetchOutcome) (nm : String)
    (hdiff : ∀ m, m ≠ nm → o' m = o m) :
    ∀ l : List (String × String),
      (metricsLoop o' l).filter (fun d => !(d.nameOf == nm)) =
      (metricsLoop o l).filter (fun d => !(d.nameOf == nm)) := by
  intro l
  induction l with
  | nil => rfl
  | cons hd tl ih =>
    obtain ⟨m, q⟩ := hd
    by_cases hm : m = nm
    · subst hm
      cases h1 : metricLine m (o' m) with
      | none =>
        cases h2 : metricLine m (o m) with
        | none => simp [metricsLoop, h1, h2, ih]
        | some d =>
          have hn2 := metricLine_name m (o m) d h2
          simp [metricsLoop, h1, h2, List.filter_cons, hn2, ih]
      | some d =>
        have hn1 := metricLine_name m (o' m) d h1
        cases h2 : metricLine m (o m) with
        | none => simp [metricsLoop, h1, h2, List.filter_cons, hn1, ih]
        | some d2 =>
          have hn2 := metricLine_name m (o m) d2 h2
          simp [metricsLoop, h1, h2, List.filter_cons, hn1, hn2, ih]
    · have he : o' m = o m := hdiff m hm
      cases h2 : metricLine m (o m) with
      | none => simp [metricsLoop, he, h2, ih]
      | some d =>
        have hn := metricLine_name m (o m) d h2
        simp [metricsLoop, he, h2, List.filter_cons, hn, hm, ih]

theorem metricsLoop_countP_zero (o : String → FetchOutcome) (nm : String) :
    ∀ l : List (String × String),
      (∀ p ∈ l, p.1 = nm → metricLine p.1 (o p.1) = none) →
      (metricsLoop o l).countP (fun d => d.nameOf == nm) = 0 := by
  intro l
  induction l with
  | nil =>
    intro _
    rfl
  | cons hd tl ih =>
    intro h
    obtain ⟨m, q⟩ := hd
    have htl : ∀ p ∈ tl, p.1 = nm → metricLine p.1 (o p.1) = none :=
      fun p hp => h p (List.mem_cons_of_mem _ hp)
    by_cases hm : m = nm
    · subst hm
      have hnone : metricLine m (o m) = none := h (m, q) (List.mem_cons_self _ _) rfl
      simp [metricsLoop, hnone, ih htl]
    · cases h2 : metricLine m (o m) with
      | none => simp [metricsLoop, h2, ih htl]
      | some d =>
        have hn := metricLine_name m (o m) d h2
        simp [metricsLoop, h2, List.countP_cons, hn, hm, ih htl]

theorem metricsLoop_mem_unavailable (o : String → FetchOutcome) :
    ∀ (l : List (String × String)) (m q : String), (m, q) ∈ l →
      o m = FetchOutcome.exn →
      MetricDisplay.unavailable m ∈ metricsLoop o l := by
  intro l
  induction l with
  | nil =>
    intro m q h _
    cases h
  | cons hd tl ih =>
    intro m q hmem ho
    obtain ⟨a, b⟩ := hd
    rcases List.mem_cons.mp hmem with heq | htl
    · cases heq
      simp [metricsLoop, ho, metricLine]
    · cases h2 : metricLine a (o a) with
      | none =>
        simp only [metricsLoop, h2]
        exact ih m q htl ho
      | some d =>
        simp only [metricsLoop, h2]
        exact List.mem_cons_of_mem _ (ih m q htl ho)

/-- Claim C8: telemetry fetches are independent and best effort: a raise on
the alert fetch (including malformed JSON) makes check_alerts report only
the unavailable outcome and never escapes; a raise on a metric query puts
the Unable-to-fetch entry for exactly that metric into the snapshot; and
changing the outcome of one query never changes the display entries of the
other metrics. -/
theorem telemetry_best_effort (o o' : String → FetchOutcome) (nm : String)
    (hdiff : ∀ m, m ≠ nm → o' m = o m) :
    check_alerts AlertsOutcome.exn = AlertsDisplay.unavailable ∧
    (∀ m q, (m, q) ∈ metric_queries → o m = FetchOutcome.exn →
      MetricDisplay.unavailable m ∈ get_system_metrics o) ∧
    (get_system_metrics o').filter (fun d => !(d.nameOf == nm)) =
      (get_system_metrics o).filter (fun d => !(d.nameOf == nm)) :=
  ⟨rfl,
   fun m q hmem ho => metricsLoop_mem_unavailable o metric_queries m q hmem ho,
   metricsLoop_filter_congr o o' nm hdiff metric_queries⟩

/-- Witness for C8: with every fetch raising, the snapshot shows the
Unable-to-fetch entry for the CPU metric. -/
theorem telemetry_best_effort_witness :
    MetricDisplay.unavailable "CPU Usage" ∈ get_system_metrics oW :=
  (telemetry_best_effort oW oW "CPU Usage" (fun _ _ => rfl)).2.1 "CPU Usage"
    "100 - (avg(rate(windows_cpu_time_total\x7bmode=\"idle\"\x7d[1m])) * 100)"
    (by decide) rfl

/-- Claim C10: a metric query whose request and JSON parsing succeed but
whose payload has a status other than success, or an empty result list, is
silently omitted from the displayed snapshot: no display line labelled with
that metric name is produced, neither a value nor an Unable-to-fetch
marker. -/
theorem metrics_silent_omission (o : String → FetchOutcome) (nm q st : String)
    (res : List Int) (_hmem : (nm, q) ∈ metric_queries)
    (ho : o nm = FetchOutcome.payload st res)
    (hbad : (st == "success") = false ∨ res = []) :
    (get_system_metrics o).countP (fun d => d.nameOf == nm) = 0 := by
  apply metricsLoop_countP_zero
  intro p hp hpn
  rw [hpn, ho]
  cases hbad with
  | inl h => simp [metricLine, h]
  | inr h =>
    subst h
    by_cases hst : (st == "success") = true <;> simp [metricLine, hst]

/-- Witness for C10: with every query answering a payload whose status field
is error, the snapshot holds no line at all for the CPU metric. -/
theorem metrics_silent_omission_witness :
    (get_system_metrics oBad).countP (fun d => d.nameOf == "CPU Usage") = 0 :=
  metrics_silent_omission oBad "CPU Usage"
    "100 - (avg(rate(windows_cpu_time_total\x7bmode=\"idle\"\x7d[1m])) * 100)"
    "error" [] (by decide) rfl (Or.inl (by decide))

end SystemMonitor
